import Mathlib

/-!
Verification development for the conformal pose-prediction pipeline
(`closure/conformal_predictor.py`).  Rotations and translations are kept as
abstract types `R` and `T`; the pose-metric kernels (`get_rotation_dist`,
Euclidean distance) and the normalization policy live in a `Geom` record,
because their implementations (`gpu_utils`, `nonconformity_funcs`) are not part
of the sources under verification.  All scalar arithmetic is over `ℚ`.
-/

/-- Substring test helper: does the pattern match at the head of the list? -/
def leadMatch : List Char → List Char → Bool
  | _, [] => true
  | [], _ :: _ => false
  | c :: cs, p :: ps => (c == p) && leadMatch cs ps

/-- Substring containment on character lists (Python `pat in s`). -/
def hasSubList : List Char → List Char → Bool
  | [], pat => pat.isEmpty
  | c :: cs, pat => leadMatch (c :: cs) pat || hasSubList cs pat

/-- Python's `pat in s` substring containment on strings. -/
def strHasSub (s pat : String) : Bool :=
  hasSubList s.toList pat.toList

/-- Errors that the Python code can raise, plus the error names the design
document asks for (`degenerateCalibration`, `insufficientCalibrationData`,
`invalidConfiguration`); the latter three never occur in the code and are
present so that statements about them can be written down. -/
inductive PyError where
  | valueError (msg : String)
  | zeroDivisionError
  | indexError
  | degenerateCalibration
  | insufficientCalibrationData
  | invalidConfiguration
deriving DecidableEq

/-- The mutable module-level state of `nonconformity_funcs` (`F`): the two
calibrated ratios written by `ConfromalPredictor.calibrate` and read by
`ConfromalPredictor.nonconformity_func` in joint (`Rt`) mode. -/
structure FState where
  calibrated_R_ratio : ℚ
  calibrated_t_ratio : ℚ
deriving DecidableEq

/-- Aggregation policy across the hypothesis set. -/
inductive Agg where
  | mean
  | max
deriving DecidableEq

/-- Modelled from the spec: confidence-weighted aggregation of per-hypothesis
distances, `mean` = weighted average, `max` = worst case of confidence-scaled
distances. -/
def Agg.aggregate : Agg → List ℚ → List ℚ → ℚ
  | .mean, scores, dists => (List.zipWith (· * ·) scores dists).sum / scores.sum
  | .max, scores, dists => (List.zipWith (· * ·) scores dists).foldr (fun a b => a ⊔ b) 0

/-- The pose-geometry kernels that the core delegates to: rotation geodesic
distance, translation Euclidean distance, and the (deliberately unspecified)
normalization rescaling.  Their implementations live outside the verified
sources, so the development is parametric in them. -/
structure Geom (R T : Type) where
  rotDist : R → R → ℚ
  tDist : T → T → ℚ
  normFn : List ℚ → List ℚ

/-- Modelled from the spec: `nonconformity_funcs.nonconformity_func`, absent
from the sources under verification.  Per-hypothesis disagreement is the
rotation geodesic distance and the translation Euclidean distance to the
candidate center; each list of distances is optionally normalized, aggregated
weighted by the hypothesis confidences, and the two components are rescaled by
`R_ratio` / `t_ratio` and summed. -/
def F.nonconformity_func {R T : Type} (G : Geom R T) (center_R : R) (center_t : T)
    (pred_Rs : List R) (pred_ts : List T) (pred_scores : List ℚ)
    (aggregate_method : Agg) (normalize : Bool) (R_ratio t_ratio : ℚ) : ℚ :=
  let R_dists := pred_Rs.map (fun p => G.rotDist center_R p)
  let t_dists := pred_ts.map (fun p => G.tDist center_t p)
  let R_dists := if normalize then G.normFn R_dists else R_dists
  let t_dists := if normalize then G.normFn t_dists else t_dists
  R_ratio * aggregate_method.aggregate pred_scores R_dists
    + t_ratio * aggregate_method.aggregate pred_scores t_dists

/-- The aggregation method chosen from the function name
(`"mean" if "mean" in ... else "max"`). -/
def aggOf (name : String) : Agg :=
  if strHasSub name "mean" then .mean else .max

/-- The normalization flag chosen from the function name
(`True if "normalized" in ... else False`). -/
def normOf (name : String) : Bool :=
  strHasSub name "normalized"

/-- The ratio-pair dispatch of `ConfromalPredictor.nonconformity_func`
(lines 143-153): substring checks `"Rt"`, then `"R"`, then `"t"`, else
`ValueError`. -/
def modeRatios (name : String) (st : FState) : Except PyError (ℚ × ℚ) :=
  if strHasSub name "Rt" then .ok (st.calibrated_R_ratio, st.calibrated_t_ratio)
  else if strHasSub name "R" then .ok (1, 0)
  else if strHasSub name "t" then .ok (0, 1)
  else .error (.valueError "Invalid nonconformity function name")

/-- One observation batch: the `Dataset` dataclass of the source, with
`N`-indexed parallel lists. -/
structure Dataset (R T : Type) where
  data_ids : List ℕ
  gt_Rs : List R
  gt_ts : List T
  pred_Rs : List (List R)
  pred_ts : List (List T)
  pred_scores : List (List ℚ)
  object_ids : List ℕ
  image_ids : List ℕ
  size : ℕ
deriving DecidableEq

/-- The closure-search parameter dictionary. -/
structure ClosureParams where
  n_iterations : ℕ
  n_walks : ℕ
  base_ang_vel : ℚ
  base_lin_vel : ℚ
  decay_factor : ℚ
  n_time_steps : ℕ
  R_perturbation_scale : ℚ
  t_perturbation_scale : ℚ
  n_perturbations : ℕ
  n_optimal_perturbations : ℕ
  device_id : ℕ
deriving DecidableEq

/-- The `ConfromalPredictor` object (name kept as in the source), after
`load_dataset` has populated the calibration and test subsets. -/
structure ConfromalPredictor (R T : Type) where
  nonconformity_func_name : String
  closure_params : ClosureParams
  init_sample_num : ℕ
  top_hypotheses_num : ℕ
  seed : ℕ
  calibration_set : Dataset R T
  test_set : Dataset R T
deriving DecidableEq

/-- `ConfromalPredictor.nonconformity_func` (lines 135-164): dispatch the
ratio pair from the function name and the module state, then call
`F.nonconformity_func` for a single candidate center. -/
def ConfromalPredictor.nonconformity_func {R T : Type} (G : Geom R T)
    (cp : ConfromalPredictor R T) (st : FState) (center_R : R) (center_t : T)
    (pred_Rs : List R) (pred_ts : List T) (pred_scores : List ℚ) :
    Except PyError ℚ :=
  match modeRatios cp.nonconformity_func_name st with
  | .error e => .error e
  | .ok rt =>
    .ok (F.nonconformity_func G center_R center_t pred_Rs pred_ts pred_scores
      (aggOf cp.nonconformity_func_name) (normOf cp.nonconformity_func_name) rt.1 rt.2)

/-- The linear-interpolation empirical quantile (numpy's default method for
`np.quantile`): on the sorted sample, the virtual index is `q * (n - 1)` and
the value is interpolated between its floor and the next entry. -/
def quantLin (xs : List ℚ) (q : ℚ) : ℚ :=
  let sorted := List.insertionSort (fun a b => a ≤ b) xs
  let n := xs.length
  let h := q * ((n : ℚ) - 1)
  let i := (⌊h⌋).toNat
  let lo := sorted.getD i 0
  let hi := sorted.getD (min (i + 1) (n - 1)) 0
  lo + (h - (i : ℚ)) * (hi - lo)

/-- `np.quantile`: rejects `q` outside `[0, 1]` (ValueError), errors on an
empty sample (IndexError in numpy), otherwise the linear-interpolation
empirical quantile. -/
def npQuantile (xs : List ℚ) (q : ℚ) : Except PyError ℚ :=
  if q < 0 ∨ 1 < q then .error (.valueError "Quantiles must be in the range [0, 1]")
  else if xs = [] then .error .indexError
  else .ok (quantLin xs q)

/-- Sequential effectful map over a list in the `Except` monad: the Python
loops that fill a score array entry by entry, stopping at the first raised
exception. -/
def gatherExcept {α β : Type} (f : α → Except PyError β) : List α → Except PyError (List β)
  | [] => .ok []
  | a :: l =>
    match f a with
    | .error e => .error e
    | .ok b =>
      match gatherExcept f l with
      | .error e => .error e
      | .ok bs => .ok (b :: bs)

/-- The list of ground-truth nonconformity scores of a dataset: observation
`k`'s ground-truth pose scored against observation `k`'s hypothesis set with
fixed ratios (the body of the calibration/testing loops). -/
def gtScoreList {R T : Type} [Inhabited R] [Inhabited T] (G : Geom R T)
    (name : String) (ds : Dataset R T) (R_ratio t_ratio : ℚ) : List ℚ :=
  (List.range ds.size).map (fun k =>
    F.nonconformity_func G (ds.gt_Rs.getD k default) (ds.gt_ts.getD k default)
      (ds.pred_Rs.getD k []) (ds.pred_ts.getD k []) (ds.pred_scores.getD k [])
      (aggOf name) (normOf name) R_ratio t_ratio)

/-- `ConfromalPredictor.calibrate` (lines 166-232).  Single-component mode
scores every calibration ground truth through `nonconformity_func` and takes
the `1 - epsilon` quantile.  Joint (`Rt`) mode first computes rotation-only
and translation-only score quantiles, overwrites the module ratios with their
reciprocals (Python raises `ZeroDivisionError` when a provisional threshold is
zero), then re-scores jointly and takes the `1 - epsilon` quantile.  The
returned pair is the module state after the call together with the
threshold. -/
def ConfromalPredictor.calibrate {R T : Type} [Inhabited R] [Inhabited T]
    (G : Geom R T) (cp : ConfromalPredictor R T) (st : FState) (epsilon : ℚ) :
    Except PyError (FState × ℚ) :=
  if strHasSub cp.nonconformity_func_name "Rt" = false then
    match gatherExcept (fun k =>
        cp.nonconformity_func G st (cp.calibration_set.gt_Rs.getD k default)
          (cp.calibration_set.gt_ts.getD k default)
          (cp.calibration_set.pred_Rs.getD k [])
          (cp.calibration_set.pred_ts.getD k [])
          (cp.calibration_set.pred_scores.getD k []))
        (List.range cp.calibration_set.size) with
    | .error e => .error e
    | .ok nonconformity_scores =>
      match npQuantile nonconformity_scores (1 - epsilon) with
      | .error e => .error e
      | .ok nonconformity_threshold => .ok (st, nonconformity_threshold)
  else
    let scoresR := gtScoreList G cp.nonconformity_func_name cp.calibration_set 1 0
    let scorest := gtScoreList G cp.nonconformity_func_name cp.calibration_set 0 1
    match npQuantile scoresR (1 - epsilon) with
    | .error e => .error e
    | .ok thresholdR =>
      match npQuantile scorest (1 - epsilon) with
      | .error e => .error e
      | .ok thresholdt =>
        if thresholdR = 0 then .error .zeroDivisionError
        else if thresholdt = 0 then .error .zeroDivisionError
        else
          let st' : FState := ⟨1 / thresholdR, 1 / thresholdt⟩
          match gatherExcept (fun k =>
              cp.nonconformity_func G st' (cp.calibration_set.gt_Rs.getD k default)
                (cp.calibration_set.gt_ts.getD k default)
                (cp.calibration_set.pred_Rs.getD k [])
                (cp.calibration_set.pred_ts.getD k [])
                (cp.calibration_set.pred_scores.getD k []))
              (List.range cp.calibration_set.size) with
          | .error e => .error e
          | .ok joint_scores =>
            match npQuantile joint_scores (1 - epsilon) with
            | .error e => .error e
            | .ok nonconformity_threshold => .ok (st', nonconformity_threshold)

/-- `ConfromalPredictor.test_threshold` (lines 234-250): the fraction of test
observations whose ground-truth nonconformity score strictly exceeds the
threshold. -/
def ConfromalPredictor.test_threshold {R T : Type} [Inhabited R] [Inhabited T]
    (G : Geom R T) (cp : ConfromalPredictor R T) (st : FState)
    (nonconformity_threshold : ℚ) : Except PyError ℚ :=
  match gatherExcept (fun k =>
      cp.nonconformity_func G st (cp.test_set.gt_Rs.getD k default)
        (cp.test_set.gt_ts.getD k default) (cp.test_set.pred_Rs.getD k [])
        (cp.test_set.pred_ts.getD k []) (cp.test_set.pred_scores.getD k []))
      (List.range cp.test_set.size) with
  | .error e => .error e
  | .ok nonconformity_scores =>
    .ok ((nonconformity_scores.countP (fun s => decide (nonconformity_threshold < s)) : ℚ)
      / (cp.test_set.size : ℚ))

/-- The collaborators of `predict` whose implementations live outside the
verified sources: the convex-combination candidate sampler (`gpu_utils`), the
closure search (`ClosureFoundationPose.run`), and the two minimal-enclosing-
ball solvers (`miniball`). -/
structure Externals (R T : Type) where
  sample_convex_combination : List R → List T → ℕ → List (R × T)
  closure_run : List R → List T → List ℚ → ℚ → List (R × T) → List R × List T
  rotation_miniball : List R → R × ℚ
  miniball : List T → T × ℚ

/-- The initial feasible set built inside `predict` (lines 275-283): sample
candidate centers, score them all against the hypothesis set, and keep exactly
the candidates whose score is strictly below the threshold (the boolean-mask
filter `scores < threshold`). -/
def ConfromalPredictor.initFeasible {R T : Type} (G : Geom R T) (ext : Externals R T)
    (cp : ConfromalPredictor R T) (st : FState) (pred_Rs : List R) (pred_ts : List T)
    (pred_scores : List ℚ) (nonconformity_threshold : ℚ) :
    Except PyError (List (R × T)) :=
  let samples := ext.sample_convex_combination pred_Rs pred_ts cp.init_sample_num
  match gatherExcept (fun c =>
      cp.nonconformity_func G st c.1 c.2 pred_Rs pred_ts pred_scores) samples with
  | .error e => .error e
  | .ok nonconformity_scores =>
    .ok (((samples.zip nonconformity_scores).filter
      (fun p => decide (p.2 < nonconformity_threshold))).map Prod.fst)

/-- `ConfromalPredictor.predict` (lines 253-313): filter the sampled
candidates to the initial feasible set, hand that set to the closure search,
and summarize the returned feasible rotations/translations with the two
minimal enclosing balls. -/
def ConfromalPredictor.predict {R T : Type} (G : Geom R T) (ext : Externals R T)
    (cp : ConfromalPredictor R T) (st : FState) (pred_Rs : List R) (pred_ts : List T)
    (pred_scores : List ℚ) (nonconformity_threshold : ℚ) :
    Except PyError (R × T × ℚ × ℚ × List R × List T) :=
  match cp.initFeasible G ext st pred_Rs pred_ts pred_scores nonconformity_threshold with
  | .error e => .error e
  | .ok valid_centers =>
    let feasible := ext.closure_run pred_Rs pred_ts pred_scores
      nonconformity_threshold valid_centers
    let mbR := ext.rotation_miniball feasible.1
    let mbt := ext.miniball feasible.2
    .ok (mbR.1, mbt.1, mbR.2, mbt.2, feasible.1, feasible.2)

/-- One entry of the `predict_data` list built by `predict_testset` (the wall
clock `time_cost` entry is omitted: it is real time, outside the model). -/
structure PredictRecord (R T : Type) where
  object_id : ℕ
  image_id : ℕ
  data_id : ℕ
  gt_Rs : R
  gt_ts : T
  pred_Rs : List R
  pred_ts : List T
  pred_scores : List ℚ
  minimax_center_R : R
  minimax_center_t : T
  minimax_center_err_R : ℚ
  minimax_center_err_t : ℚ
  error_bound_R : ℚ
  error_bound_t : ℚ
  R_set : List R
  t_set : List T
deriving DecidableEq

/-- The parameter dictionary that `predict_testset` persists next to the
prediction records. -/
structure RunParams where
  closure_params : ClosureParams
  nonconformity_threshold : ℚ
  nonconformity_func_name : String
  top_hypotheses_num : ℕ
  init_sample_num : ℕ
  seed : ℕ
deriving DecidableEq

/-- The configuration dictionary written by `predict_testset`
(lines 365-371). -/
def ConfromalPredictor.runParams {R T : Type} (cp : ConfromalPredictor R T)
    (nonconformity_threshold : ℚ) : RunParams :=
  ⟨cp.closure_params, nonconformity_threshold, cp.nonconformity_func_name,
    cp.top_hypotheses_num, cp.init_sample_num, cp.seed⟩

/-- `ConfromalPredictor.predict_testset` (lines 315-375): loop over the fixed
index range `range(50)` (not over the whole test set), run `predict` on each
of those test observations, build the per-observation record, and return the
record list together with the persisted parameter dictionary.  Indexing a
numpy array beyond its length raises `IndexError`, so a test set with fewer
than 50 observations fails and nothing is persisted.

`recordOf` is the body of the per-observation loop: run `predict` on test
observation `k` and assemble the record `dict`. -/
def ConfromalPredictor.recordOf {R T : Type} [Inhabited R] [Inhabited T]
    (G : Geom R T) (ext : Externals R T) (cp : ConfromalPredictor R T) (st : FState)
    (nonconformity_threshold : ℚ) (k : ℕ) : Except PyError (PredictRecord R T) :=
  match cp.predict G ext st (cp.test_set.pred_Rs.getD k [])
      (cp.test_set.pred_ts.getD k []) (cp.test_set.pred_scores.getD k [])
      nonconformity_threshold with
  | .error e => .error e
  | .ok out =>
    .ok { object_id := cp.test_set.object_ids.getD k 0
          image_id := cp.test_set.image_ids.getD k 0
          data_id := cp.test_set.data_ids.getD k 0
          gt_Rs := cp.test_set.gt_Rs.getD k default
          gt_ts := cp.test_set.gt_ts.getD k default
          pred_Rs := cp.test_set.pred_Rs.getD k []
          pred_ts := cp.test_set.pred_ts.getD k []
          pred_scores := cp.test_set.pred_scores.getD k []
          minimax_center_R := out.1
          minimax_center_t := out.2.1
          minimax_center_err_R := G.rotDist out.1 (cp.test_set.gt_Rs.getD k default)
          minimax_center_err_t := G.tDist out.2.1 (cp.test_set.gt_ts.getD k default)
          error_bound_R := out.2.2.1
          error_bound_t := out.2.2.2.1
          R_set := out.2.2.2.2.1
          t_set := out.2.2.2.2.2 }

def ConfromalPredictor.predict_testset {R T : Type} [Inhabited R] [Inhabited T]
    (G : Geom R T) (ext : Externals R T) (cp : ConfromalPredictor R T) (st : FState)
    (nonconformity_threshold : ℚ) :
    Except PyError (List (PredictRecord R T) × RunParams) :=
  if cp.test_set.size < 50 then .error .indexError
  else
    match gatherExcept (cp.recordOf G ext st nonconformity_threshold) (List.range 50) with
    | .error e => .error e
    | .ok predict_data => .ok (predict_data, cp.runParams nonconformity_threshold)

/-- The partitioning half of `load_dataset` (lines 105-133), taking the
already-loaded full dataset and the randomly drawn calibration index list:
the calibration subset gathers every field at the calibration indices; the
test subset gathers the remaining indices, except that its `image_ids` field
is assigned from `object_ids` (line 131 of the source). -/
def loadPartition {R T : Type} [Inhabited R] [Inhabited T] (ds : Dataset R T)
    (calibration_ids : List ℕ) : Dataset R T × Dataset R T :=
  let calibration_set : Dataset R T :=
    { data_ids := calibration_ids
      gt_Rs := calibration_ids.map (fun i => ds.gt_Rs.getD i default)
      gt_ts := calibration_ids.map (fun i => ds.gt_ts.getD i default)
      pred_Rs := calibration_ids.map (fun i => ds.pred_Rs.getD i [])
      pred_ts := calibration_ids.map (fun i => ds.pred_ts.getD i [])
      pred_scores := calibration_ids.map (fun i => ds.pred_scores.getD i [])
      object_ids := calibration_ids.map (fun i => ds.object_ids.getD i 0)
      image_ids := calibration_ids.map (fun i => ds.image_ids.getD i 0)
      size := calibration_ids.length }
  let test_ids := (List.range ds.size).filter (fun i => decide (¬ i ∈ calibration_ids))
  let test_set : Dataset R T :=
    { data_ids := test_ids
      gt_Rs := test_ids.map (fun i => ds.gt_Rs.getD i default)
      gt_ts := test_ids.map (fun i => ds.gt_ts.getD i default)
      pred_Rs := test_ids.map (fun i => ds.pred_Rs.getD i [])
      pred_ts := test_ids.map (fun i => ds.pred_ts.getD i [])
      pred_scores := test_ids.map (fun i => ds.pred_scores.getD i [])
      object_ids := test_ids.map (fun i => ds.object_ids.getD i 0)
      image_ids := test_ids.map (fun i => ds.object_ids.getD i 0)
      size := ds.size - calibration_ids.length }
  (calibration_set, test_set)

/-! Helper lemmas. -/

theorem gatherExcept_ok {α β : Type} (f : α → Except PyError β) (g : α → β)
    (l : List α) (h : ∀ a ∈ l, f a = .ok (g a)) :
    gatherExcept f l = .ok (l.map g) := by
  induction l with
  | nil => rfl
  | cons a l ih =>
    simp only [gatherExcept, h a (List.mem_cons_self a l),
      ih (fun b hb => h b (List.mem_cons_of_mem a hb)), List.map_cons]

theorem npQuantile_ok (xs : List ℚ) (q : ℚ) (hq0 : 0 ≤ q) (hq1 : q ≤ 1)
    (hne : xs ≠ []) : npQuantile xs q = .ok (quantLin xs q) := by
  unfold npQuantile
  rw [if_neg (by push_neg; exact ⟨hq0, hq1⟩), if_neg hne]

theorem npQuantile_badq (xs : List ℚ) (q : ℚ) (h : q < 0 ∨ 1 < q) :
    npQuantile xs q = .error (.valueError "Quantiles must be in the range [0, 1]") := by
  unfold npQuantile
  rw [if_pos h]

theorem npQuantile_empty (q : ℚ) (hq0 : 0 ≤ q) (hq1 : q ≤ 1) :
    npQuantile [] q = .error .indexError := by
  unfold npQuantile
  rw [if_neg (by push_neg; exact ⟨hq0, hq1⟩), if_pos rfl]

theorem nonconformity_func_ok {R T : Type} (G : Geom R T)
    (cp : ConfromalPredictor R T) (st : FState) (rt : ℚ × ℚ)
    (hmode : modeRatios cp.nonconformity_func_name st = .ok rt)
    (cR : R) (ct : T) (pRs : List R) (pts : List T) (pss : List ℚ) :
    cp.nonconformity_func G st cR ct pRs pts pss =
      .ok (F.nonconformity_func G cR ct pRs pts pss
        (aggOf cp.nonconformity_func_name) (normOf cp.nonconformity_func_name)
        rt.1 rt.2) := by
  unfold ConfromalPredictor.nonconformity_func
  rw [hmode]

theorem gtScoreList_length {R T : Type} [Inhabited R] [Inhabited T] (G : Geom R T)
    (name : String) (ds : Dataset R T) (a b : ℚ) :
    (gtScoreList G name ds a b).length = ds.size := by
  simp [gtScoreList]

theorem gtScoreList_ne_nil {R T : Type} [Inhabited R] [Inhabited T] (G : Geom R T)
    (name : String) (ds : Dataset R T) (a b : ℚ) (hsz : 1 ≤ ds.size) :
    gtScoreList G name ds a b ≠ [] := by
  intro hnil
  have := gtScoreList_length G name ds a b
  rw [hnil] at this
  simp at this
  omega

theorem zip_filter_fst {α : Type} (l : List α) (g : α → ℚ) (thr : ℚ) :
    ((l.zip (l.map g)).filter (fun p => decide (p.2 < thr))).map Prod.fst
      = l.filter (fun a => decide (g a < thr)) := by
  induction l with
  | nil => rfl
  | cons a l ih =>
    simp only [List.map_cons, List.zip_cons_cons, List.filter_cons]
    by_cases h : g a < thr
    · simp [h, ih]
    · simp [h, ih]

/-- The single-component branch of `calibrate`: the returned threshold is the
linear `1 - ε` quantile of the ground-truth score list, and the module state
is untouched. -/
theorem calibrate_single_eq {R T : Type} [Inhabited R] [Inhabited T] (G : Geom R T)
    (cp : ConfromalPredictor R T) (st : FState) (epsilon : ℚ) (rt : ℚ × ℚ)
    (hRt : strHasSub cp.nonconformity_func_name "Rt" = false)
    (hmode : modeRatios cp.nonconformity_func_name st = .ok rt)
    (hsz : 1 ≤ cp.calibration_set.size)
    (hq0 : 0 ≤ 1 - epsilon) (hq1 : 1 - epsilon ≤ 1) :
    cp.calibrate G st epsilon =
      .ok (st, quantLin
        (gtScoreList G cp.nonconformity_func_name cp.calibration_set rt.1 rt.2)
        (1 - epsilon)) := by
  have hscores : gatherExcept (fun k =>
      cp.nonconformity_func G st (cp.calibration_set.gt_Rs.getD k default)
        (cp.calibration_set.gt_ts.getD k default)
        (cp.calibration_set.pred_Rs.getD k [])
        (cp.calibration_set.pred_ts.getD k [])
        (cp.calibration_set.pred_scores.getD k []))
      (List.range cp.calibration_set.size) =
      .ok (gtScoreList G cp.nonconformity_func_name cp.calibration_set rt.1 rt.2) := by
    rw [gatherExcept_ok _ (fun k =>
      F.nonconformity_func G (cp.calibration_set.gt_Rs.getD k default)
        (cp.calibration_set.gt_ts.getD k default)
        (cp.calibration_set.pred_Rs.getD k [])
        (cp.calibration_set.pred_ts.getD k [])
        (cp.calibration_set.pred_scores.getD k [])
        (aggOf cp.nonconformity_func_name) (normOf cp.nonconformity_func_name)
        rt.1 rt.2)]
    · rfl
    · intro k _
      exact nonconformity_func_ok G cp st rt hmode _ _ _ _ _
  unfold ConfromalPredictor.calibrate
  rw [if_pos hRt, hscores]
  dsimp only
  rw [npQuantile_ok _ _ hq0 hq1 (gtScoreList_ne_nil G _ _ rt.1 rt.2 hsz)]

theorem modeRatios_Rt (name : String) (st : FState)
    (h : strHasSub name "Rt" = true) :
    modeRatios name st = .ok (st.calibrated_R_ratio, st.calibrated_t_ratio) := by
  unfold modeRatios
  rw [if_pos h]

/-- Scoring every ground truth of a dataset through the dispatching
`nonconformity_func` is the pure score list, whenever the dispatch succeeds. -/
theorem gather_gtScores {R T : Type} [Inhabited R] [Inhabited T] (G : Geom R T)
    (cp : ConfromalPredictor R T) (st : FState) (rt : ℚ × ℚ) (ds : Dataset R T)
    (hmode : modeRatios cp.nonconformity_func_name st = .ok rt) :
    gatherExcept (fun k =>
      cp.nonconformity_func G st (ds.gt_Rs.getD k default) (ds.gt_ts.getD k default)
        (ds.pred_Rs.getD k []) (ds.pred_ts.getD k []) (ds.pred_scores.getD k []))
      (List.range ds.size) =
      .ok (gtScoreList G cp.nonconformity_func_name ds rt.1 rt.2) := by
  rw [gatherExcept_ok _ (fun k =>
    F.nonconformity_func G (ds.gt_Rs.getD k default) (ds.gt_ts.getD k default)
      (ds.pred_Rs.getD k []) (ds.pred_ts.getD k []) (ds.pred_scores.getD k [])
      (aggOf cp.nonconformity_func_name) (normOf cp.nonconformity_func_name)
      rt.1 rt.2)]
  · rfl
  · intro k _
    exact nonconformity_func_ok G cp st rt hmode _ _ _ _ _

/-- `test_threshold` computes the fraction of test ground-truth scores that
strictly exceed the threshold. -/
theorem test_threshold_eq {R T : Type} [Inhabited R] [Inhabited T] (G : Geom R T)
    (cp : ConfromalPredictor R T) (st : FState) (rt : ℚ × ℚ)
    (nonconformity_threshold : ℚ)
    (hmode : modeRatios cp.nonconformity_func_name st = .ok rt) :
    cp.test_threshold G st nonconformity_threshold =
      .ok (((gtScoreList G cp.nonconformity_func_name cp.test_set rt.1 rt.2).countP
          (fun s => decide (nonconformity_threshold < s)) : ℚ)
        / (cp.test_set.size : ℚ)) := by
  unfold ConfromalPredictor.test_threshold
  rw [gather_gtScores G cp st rt cp.test_set hmode]

/-- The joint (`Rt`) branch of `calibrate` in the non-degenerate case: the
module ratios become the reciprocals of the two provisional quantiles and the
threshold is the `1 - ε` quantile of the joint re-scored sample. -/
theorem calibrate_joint_eq {R T : Type} [Inhabited R] [Inhabited T] (G : Geom R T)
    (cp : ConfromalPredictor R T) (st : FState) (epsilon : ℚ)
    (hRt : strHasSub cp.nonconformity_func_name "Rt" = true)
    (hsz : 1 ≤ cp.calibration_set.size)
    (hq0 : 0 ≤ 1 - epsilon) (hq1 : 1 - epsilon ≤ 1)
    (hthrR : quantLin (gtScoreList G cp.nonconformity_func_name cp.calibration_set 1 0)
      (1 - epsilon) ≠ 0)
    (hthrt : quantLin (gtScoreList G cp.nonconformity_func_name cp.calibration_set 0 1)
      (1 - epsilon) ≠ 0) :
    cp.calibrate G st epsilon = .ok
      (⟨1 / quantLin (gtScoreList G cp.nonconformity_func_name cp.calibration_set 1 0)
          (1 - epsilon),
        1 / quantLin (gtScoreList G cp.nonconformity_func_name cp.calibration_set 0 1)
          (1 - epsilon)⟩,
        quantLin (gtScoreList G cp.nonconformity_func_name cp.calibration_set
          (1 / quantLin (gtScoreList G cp.nonconformity_func_name cp.calibration_set 1 0)
            (1 - epsilon))
          (1 / quantLin (gtScoreList G cp.nonconformity_func_name cp.calibration_set 0 1)
            (1 - epsilon))) (1 - epsilon)) := by
  have hmode' : modeRatios cp.nonconformity_func_name
      (⟨1 / quantLin (gtScoreList G cp.nonconformity_func_name cp.calibration_set 1 0)
          (1 - epsilon),
        1 / quantLin (gtScoreList G cp.nonconformity_func_name cp.calibration_set 0 1)
          (1 - epsilon)⟩ : FState) =
      .ok (1 / quantLin (gtScoreList G cp.nonconformity_func_name cp.calibration_set 1 0)
          (1 - epsilon),
        1 / quantLin (gtScoreList G cp.nonconformity_func_name cp.calibration_set 0 1)
          (1 - epsilon)) :=
    modeRatios_Rt _ _ hRt
  have hjoint := gather_gtScores G cp _ _ cp.calibration_set hmode'
  unfold ConfromalPredictor.calibrate
  rw [if_neg (by rw [hRt]; simp)]
  dsimp only
  rw [npQuantile_ok _ _ hq0 hq1 (gtScoreList_ne_nil G _ _ 1 0 hsz)]
  dsimp only
  rw [npQuantile_ok _ _ hq0 hq1 (gtScoreList_ne_nil G _ _ 0 1 hsz)]
  dsimp only
  rw [if_neg hthrR, if_neg hthrt]
  rw [hjoint]
  dsimp only
  rw [npQuantile_ok _ _ hq0 hq1 (gtScoreList_ne_nil G _ _ _ _ hsz)]

/-- The joint branch of `calibrate` when the provisional rotation threshold is
zero: the reciprocal `1 / threshold_R` is a Python float division by zero and
raises `ZeroDivisionError`. -/
theorem calibrate_joint_zeroR {R T : Type} [Inhabited R] [Inhabited T] (G : Geom R T)
    (cp : ConfromalPredictor R T) (st : FState) (epsilon : ℚ)
    (hRt : strHasSub cp.nonconformity_func_name "Rt" = true)
    (hsz : 1 ≤ cp.calibration_set.size)
    (hq0 : 0 ≤ 1 - epsilon) (hq1 : 1 - epsilon ≤ 1)
    (hthrR : quantLin (gtScoreList G cp.nonconformity_func_name cp.calibration_set 1 0)
      (1 - epsilon) = 0) :
    cp.calibrate G st epsilon = .error .zeroDivisionError := by
  unfold ConfromalPredictor.calibrate
  rw [if_neg (by rw [hRt]; simp)]
  dsimp only
  rw [npQuantile_ok _ _ hq0 hq1 (gtScoreList_ne_nil G _ _ 1 0 hsz)]
  dsimp only
  rw [npQuantile_ok _ _ hq0 hq1 (gtScoreList_ne_nil G _ _ 0 1 hsz)]
  dsimp only
  rw [if_pos hthrR]

/-- `calibrate` on an empty calibration set reaches `np.quantile` with an
empty sample and fails with its `IndexError`, whatever the scoring mode. -/
theorem calibrate_single_empty {R T : Type} [Inhabited R] [Inhabited T]
    (G : Geom R T) (cp : ConfromalPredictor R T) (st : FState) (epsilon : ℚ)
    (hRt : strHasSub cp.nonconformity_func_name "Rt" = false)
    (hsz : cp.calibration_set.size = 0)
    (hq0 : 0 ≤ 1 - epsilon) (hq1 : 1 - epsilon ≤ 1) :
    cp.calibrate G st epsilon = .error .indexError := by
  unfold ConfromalPredictor.calibrate
  rw [if_pos hRt, hsz]
  show (match npQuantile [] (1 - epsilon) with
    | .error e => (.error e : Except PyError (FState × ℚ))
    | .ok t => .ok (st, t)) = .error .indexError
  rw [npQuantile_empty _ hq0 hq1]

/-- `calibrate` with `1 - ε` outside `[0, 1]` fails with `np.quantile`'s
range `ValueError` (single-component mode). -/
theorem calibrate_single_badq {R T : Type} [Inhabited R] [Inhabited T]
    (G : Geom R T) (cp : ConfromalPredictor R T) (st : FState) (epsilon : ℚ)
    (rt : ℚ × ℚ)
    (hRt : strHasSub cp.nonconformity_func_name "Rt" = false)
    (hmode : modeRatios cp.nonconformity_func_name st = .ok rt)
    (hq : 1 - epsilon < 0 ∨ 1 < 1 - epsilon) :
    cp.calibrate G st epsilon =
      .error (.valueError "Quantiles must be in the range [0, 1]") := by
  unfold ConfromalPredictor.calibrate
  rw [if_pos hRt, gather_gtScores G cp st rt cp.calibration_set hmode]
  dsimp only
  rw [npQuantile_badq _ _ hq]

/-- The initial feasible set is exactly the sampled candidates whose score is
strictly below the threshold. -/
theorem initFeasible_eq {R T : Type} (G : Geom R T) (ext : Externals R T)
    (cp : ConfromalPredictor R T) (st : FState) (rt : ℚ × ℚ)
    (pred_Rs : List R) (pred_ts : List T) (pred_scores : List ℚ)
    (nonconformity_threshold : ℚ)
    (hmode : modeRatios cp.nonconformity_func_name st = .ok rt) :
    cp.initFeasible G ext st pred_Rs pred_ts pred_scores nonconformity_threshold =
      .ok ((ext.sample_convex_combination pred_Rs pred_ts cp.init_sample_num).filter
        (fun c => decide (F.nonconformity_func G c.1 c.2 pred_Rs pred_ts pred_scores
          (aggOf cp.nonconformity_func_name) (normOf cp.nonconformity_func_name)
          rt.1 rt.2 < nonconformity_threshold))) := by
  unfold ConfromalPredictor.initFeasible
  dsimp only
  rw [gatherExcept_ok _ (fun c =>
    F.nonconformity_func G c.1 c.2 pred_Rs pred_ts pred_scores
      (aggOf cp.nonconformity_func_name) (normOf cp.nonconformity_func_name)
      rt.1 rt.2)]
  · dsimp only
    rw [zip_filter_fst]
  · intro c _
    exact nonconformity_func_ok G cp st rt hmode _ _ _ _ _

/-- The value `predict` returns when scoring succeeds: the full pipeline
applied to the threshold-filtered sample. -/
def predictPure {R T : Type} (G : Geom R T) (ext : Externals R T)
    (cp : ConfromalPredictor R T) (rt : ℚ × ℚ) (pred_Rs : List R) (pred_ts : List T)
    (pred_scores : List ℚ) (nonconformity_threshold : ℚ) :
    R × T × ℚ × ℚ × List R × List T :=
  let valid_centers := (ext.sample_convex_combination pred_Rs pred_ts cp.init_sample_num).filter
    (fun c => decide (F.nonconformity_func G c.1 c.2 pred_Rs pred_ts pred_scores
      (aggOf cp.nonconformity_func_name) (normOf cp.nonconformity_func_name)
      rt.1 rt.2 < nonconformity_threshold))
  let feasible := ext.closure_run pred_Rs pred_ts pred_scores
    nonconformity_threshold valid_centers
  let mbR := ext.rotation_miniball feasible.1
  let mbt := ext.miniball feasible.2
  (mbR.1, mbt.1, mbR.2, mbt.2, feasible.1, feasible.2)

theorem predict_eq {R T : Type} (G : Geom R T) (ext : Externals R T)
    (cp : ConfromalPredictor R T) (st : FState) (rt : ℚ × ℚ)
    (pred_Rs : List R) (pred_ts : List T) (pred_scores : List ℚ)
    (nonconformity_threshold : ℚ)
    (hmode : modeRatios cp.nonconformity_func_name st = .ok rt) :
    cp.predict G ext st pred_Rs pred_ts pred_scores nonconformity_threshold =
      .ok (predictPure G ext cp rt pred_Rs pred_ts pred_scores
        nonconformity_threshold) := by
  unfold ConfromalPredictor.predict
  rw [initFeasible_eq G ext cp st rt pred_Rs pred_ts pred_scores
    nonconformity_threshold hmode]
  rfl

/-- The record `predict_testset` builds for test observation `k` when scoring
succeeds. -/
def recordPure {R T : Type} [Inhabited R] [Inhabited T] (G : Geom R T)
    (ext : Externals R T) (cp : ConfromalPredictor R T) (rt : ℚ × ℚ)
    (nonconformity_threshold : ℚ) (k : ℕ) : PredictRecord R T :=
  let out := predictPure G ext cp rt (cp.test_set.pred_Rs.getD k [])
    (cp.test_set.pred_ts.getD k []) (cp.test_set.pred_scores.getD k [])
    nonconformity_threshold
  { object_id := cp.test_set.object_ids.getD k 0
    image_id := cp.test_set.image_ids.getD k 0
    data_id := cp.test_set.data_ids.getD k 0
    gt_Rs := cp.test_set.gt_Rs.getD k default
    gt_ts := cp.test_set.gt_ts.getD k default
    pred_Rs := cp.test_set.pred_Rs.getD k []
    pred_ts := cp.test_set.pred_ts.getD k []
    pred_scores := cp.test_set.pred_scores.getD k []
    minimax_center_R := out.1
    minimax_center_t := out.2.1
    minimax_center_err_R := G.rotDist out.1 (cp.test_set.gt_Rs.getD k default)
    minimax_center_err_t := G.tDist out.2.1 (cp.test_set.gt_ts.getD k default)
    error_bound_R := out.2.2.1
    error_bound_t := out.2.2.2.1
    R_set := out.2.2.2.2.1
    t_set := out.2.2.2.2.2 }

theorem recordOf_eq {R T : Type} [Inhabited R] [Inhabited T] (G : Geom R T)
    (ext : Externals R T) (cp : ConfromalPredictor R T) (st : FState) (rt : ℚ × ℚ)
    (nonconformity_threshold : ℚ) (k : ℕ)
    (hmode : modeRatios cp.nonconformity_func_name st = .ok rt) :
    cp.recordOf G ext st nonconformity_threshold k =
      .ok (recordPure G ext cp rt nonconformity_threshold k) := by
  unfold ConfromalPredictor.recordOf
  rw [predict_eq G ext cp st rt _ _ _ _ hmode]
  rfl

/-- `predict_testset` on a test set with at least 50 observations: exactly the
records of test observations `0, ..., 49`, paired with the persisted
configuration. -/
theorem predict_testset_eq {R T : Type} [Inhabited R] [Inhabited T] (G : Geom R T)
    (ext : Externals R T) (cp : ConfromalPredictor R T) (st : FState) (rt : ℚ × ℚ)
    (nonconformity_threshold : ℚ)
    (hsz : ¬ cp.test_set.size < 50)
    (hmode : modeRatios cp.nonconformity_func_name st = .ok rt) :
    cp.predict_testset G ext st nonconformity_threshold =
      .ok ((List.range 50).map (recordPure G ext cp rt nonconformity_threshold),
        cp.runParams nonconformity_threshold) := by
  unfold ConfromalPredictor.predict_testset
  rw [if_neg hsz,
    gatherExcept_ok _ (recordPure G ext cp rt nonconformity_threshold) _
      (fun k _ => recordOf_eq G ext cp st rt nonconformity_threshold k hmode)]

/-! Concrete instances used by the witnesses and counterexamples: rational
stand-in poses with the absolute difference as both metrics. -/

/-- Demo geometry: `ℚ` stand-in poses, absolute difference as rotation and
translation distance, identity normalization. -/
def demoGeom : Geom ℚ ℚ :=
  ⟨fun a b => |a - b|, fun a b => |a - b|, id⟩

/-- The closure parameter values of the script entry point. -/
def demoParams : ClosureParams :=
  ⟨5, 20, 1/2, 1/5, 1/2, 15, 1/5, 1/10, 150, 10, 0⟩

/-- One observation: ground truth (0, 0), one hypothesis with rotation 1,
translation 2, confidence 1. -/
def demoCal : Dataset ℚ ℚ :=
  ⟨[0], [0], [0], [[1]], [[2]], [[1]], [0], [0], 1⟩

/-- An empty dataset (`N_c = 0`). -/
def emptyCal : Dataset ℚ ℚ :=
  ⟨[], [], [], [], [], [], [], [], 0⟩

/-- One observation whose rotation hypothesis coincides with the ground truth
(rotation score 0), translation hypothesis at distance 1. -/
def perfectRCal : Dataset ℚ ℚ :=
  ⟨[0], [0], [0], [[0]], [[1]], [[1]], [0], [0], 1⟩

/-- A predictor with the given scoring-function name and datasets. -/
def mkCP (name : String) (cal test : Dataset ℚ ℚ) : ConfromalPredictor ℚ ℚ :=
  ⟨name, demoParams, 200, 10, 0, cal, test⟩

/-- Demo external kernels: a fixed two-candidate sampler, a closure search
that returns its initial set unchanged, and enclosing-ball solvers returning
the first element with radius 0. -/
def demoExt : Externals ℚ ℚ :=
  ⟨fun _ _ _ => [(0, 0), (5, 5)],
   fun _ _ _ _ init => (init.map Prod.fst, init.map Prod.snd),
   fun l => (l.getD 0 0, 0),
   fun l => (l.getD 0 0, 0)⟩

/-- A well-formed test set with 51 observations (one more than the hardcoded
loop bound of `predict_testset`). -/
def bigTest : Dataset ℚ ℚ :=
  ⟨List.range 51, List.replicate 51 0, List.replicate 51 0,
   List.replicate 51 [1], List.replicate 51 [2], List.replicate 51 [1],
   List.replicate 51 0, List.replicate 51 0, 51⟩

/-- A two-observation full dataset whose object ids (7) differ from its image
ids (0 and 1). -/
def demoFull : Dataset ℚ ℚ :=
  ⟨[0, 1], [0, 0], [0, 0], [[1], [1]], [[2], [2]], [[1], [1]], [7, 7], [0, 1], 2⟩

/-! The claims. -/

/-- Claim C1 (confirmed): in single-component mode (no `"Rt"` in the
nonconformity function name), for every calibration set with `N_c ≥ 1` and
every `ε ∈ (0, 1)`, `calibrate` returns the empirical linear `1 - ε` quantile
of the `N_c` scores of each observation's ground-truth pose against that
observation's hypothesis set, leaving the module state untouched; and
`test_threshold` later compares raw scores of the same scoring function
against that scalar directly (strictly-greater count), so one quantile
convention is used on both sides. -/
theorem claim_C1_single_mode_quantile {R T : Type} [Inhabited R] [Inhabited T]
    (G : Geom R T) (cp : ConfromalPredictor R T) (st : FState) (epsilon : ℚ)
    (rt : ℚ × ℚ)
    (hRt : strHasSub cp.nonconformity_func_name "Rt" = false)
    (hmode : modeRatios cp.nonconformity_func_name st = .ok rt)
    (hsz : 1 ≤ cp.calibration_set.size)
    (he0 : 0 < epsilon) (he1 : epsilon < 1) :
    cp.calibrate G st epsilon =
      .ok (st, quantLin
        (gtScoreList G cp.nonconformity_func_name cp.calibration_set rt.1 rt.2)
        (1 - epsilon)) ∧
    ∀ thr : ℚ, cp.test_threshold G st thr =
      .ok (((gtScoreList G cp.nonconformity_func_name cp.test_set rt.1 rt.2).countP
          (fun s => decide (thr < s)) : ℚ) / (cp.test_set.size : ℚ)) := by
  constructor
  · exact calibrate_single_eq G cp st epsilon rt hRt hmode hsz
      (by linarith) (by linarith)
  · intro thr
    exact test_threshold_eq G cp st rt thr hmode

theorem claim_C1_single_mode_quantile_witness :
    (mkCP "max_R" demoCal demoCal).calibrate demoGeom ⟨1, 1⟩ (1/10) = .ok (⟨1, 1⟩, 1) ∧
    (mkCP "max_R" demoCal demoCal).test_threshold demoGeom ⟨1, 1⟩ 0 = .ok 1 := by
  have h := claim_C1_single_mode_quantile demoGeom (mkCP "max_R" demoCal demoCal)
    ⟨1, 1⟩ (1/10) (1, 0) (by decide) (by rfl) (by decide) (by norm_num) (by norm_num)
  constructor
  · rw [h.1]
    norm_num +decide [quantLin, gtScoreList, F.nonconformity_func, Agg.aggregate,
      aggOf, normOf, demoGeom, demoCal, mkCP, List.insertionSort, List.orderedInsert,
      strHasSub]
  · rw [h.2 0]
    norm_num +decide [gtScoreList, F.nonconformity_func, Agg.aggregate, aggOf,
      normOf, demoGeom, demoCal, mkCP, strHasSub, List.range_succ, List.range_zero,
      List.countP_cons, List.countP_nil, List.getD, Function.comp]

/-- Claim C2 (confirmed): in joint `Rt` mode with a nonempty calibration set,
`ε ∈ (0, 1)`, and nonzero provisional quantiles, `calibrate` first computes
rotation-only (`R_ratio = 1, t_ratio = 0`) and translation-only
(`R_ratio = 0, t_ratio = 1`) ground-truth scores, takes their `1 - ε`
quantiles as provisional thresholds, sets the calibrated ratios to their
reciprocals, then re-scores each calibration observation jointly with those
fixed ratios and returns the `1 - ε` quantile of the joint scores. -/
theorem claim_C2_joint_two_pass {R T : Type} [Inhabited R] [Inhabited T]
    (G : Geom R T) (cp : ConfromalPredictor R T) (st : FState) (epsilon : ℚ)
    (hRt : strHasSub cp.nonconformity_func_name "Rt" = true)
    (hsz : 1 ≤ cp.calibration_set.size)
    (he0 : 0 < epsilon) (he1 : epsilon < 1)
    (hthrR : quantLin (gtScoreList G cp.nonconformity_func_name cp.calibration_set 1 0)
      (1 - epsilon) ≠ 0)
    (hthrt : quantLin (gtScoreList G cp.nonconformity_func_name cp.calibration_set 0 1)
      (1 - epsilon) ≠ 0) :
    cp.calibrate G st epsilon = .ok
      (⟨1 / quantLin (gtScoreList G cp.nonconformity_func_name cp.calibration_set 1 0)
          (1 - epsilon),
        1 / quantLin (gtScoreList G cp.nonconformity_func_name cp.calibration_set 0 1)
          (1 - epsilon)⟩,
        quantLin (gtScoreList G cp.nonconformity_func_name cp.calibration_set
          (1 / quantLin (gtScoreList G cp.nonconformity_func_name cp.calibration_set 1 0)
            (1 - epsilon))
          (1 / quantLin (gtScoreList G cp.nonconformity_func_name cp.calibration_set 0 1)
            (1 - epsilon))) (1 - epsilon)) :=
  calibrate_joint_eq G cp st epsilon hRt hsz (by linarith) (by linarith) hthrR hthrt

theorem claim_C2_joint_two_pass_witness :
    (mkCP "max_Rt" demoCal demoCal).calibrate demoGeom ⟨1, 1⟩ (1/10) =
      .ok (⟨1, 1/2⟩, 2) := by
  have h := claim_C2_joint_two_pass demoGeom (mkCP "max_Rt" demoCal demoCal)
    ⟨1, 1⟩ (1/10) (by decide) (by decide) (by norm_num) (by norm_num)
    (by norm_num +decide [quantLin, gtScoreList, F.nonconformity_func, Agg.aggregate,
      aggOf, normOf, demoGeom, demoCal, mkCP, List.insertionSort, List.orderedInsert,
      strHasSub])
    (by norm_num +decide [quantLin, gtScoreList, F.nonconformity_func, Agg.aggregate,
      aggOf, normOf, demoGeom, demoCal, mkCP, List.insertionSort, List.orderedInsert,
      strHasSub])
  rw [h]
  norm_num +decide [quantLin, gtScoreList, F.nonconformity_func, Agg.aggregate,
    aggOf, normOf, demoGeom, demoCal, mkCP, List.insertionSort, List.orderedInsert,
    strHasSub]

/-- Claim C3 (confirmed): the initial candidate set handed by `predict` to the
closure search is exactly the sampled candidate centers whose nonconformity
score against the hypothesis set is strictly below the threshold; a sampled
candidate belongs to it if and only if its score is `< threshold`. -/
theorem claim_C3_init_strict_filter {R T : Type} (G : Geom R T)
    (ext : Externals R T) (cp : ConfromalPredictor R T) (st : FState) (rt : ℚ × ℚ)
    (pred_Rs : List R) (pred_ts : List T) (pred_scores : List ℚ)
    (nonconformity_threshold : ℚ)
    (hmode : modeRatios cp.nonconformity_func_name st = .ok rt) :
    cp.initFeasible G ext st pred_Rs pred_ts pred_scores nonconformity_threshold =
      .ok ((ext.sample_convex_combination pred_Rs pred_ts cp.init_sample_num).filter
        (fun c => decide (F.nonconformity_func G c.1 c.2 pred_Rs pred_ts pred_scores
          (aggOf cp.nonconformity_func_name) (normOf cp.nonconformity_func_name)
          rt.1 rt.2 < nonconformity_threshold))) ∧
    ∀ c : R × T,
      c ∈ (ext.sample_convex_combination pred_Rs pred_ts cp.init_sample_num).filter
        (fun c => decide (F.nonconformity_func G c.1 c.2 pred_Rs pred_ts pred_scores
          (aggOf cp.nonconformity_func_name) (normOf cp.nonconformity_func_name)
          rt.1 rt.2 < nonconformity_threshold)) ↔
      c ∈ ext.sample_convex_combination pred_Rs pred_ts cp.init_sample_num ∧
        F.nonconformity_func G c.1 c.2 pred_Rs pred_ts pred_scores
          (aggOf cp.nonconformity_func_name) (normOf cp.nonconformity_func_name)
          rt.1 rt.2 < nonconformity_threshold := by
  constructor
  · exact initFeasible_eq G ext cp st rt pred_Rs pred_ts pred_scores
      nonconformity_threshold hmode
  · intro c
    simp [List.mem_filter]

theorem claim_C3_init_strict_filter_witness :
    (mkCP "max_R" demoCal demoCal).initFeasible demoGeom demoExt ⟨1, 1⟩
      [1] [2] [1] 2 = .ok [(0, 0)] := by
  have h := (claim_C3_init_strict_filter demoGeom demoExt
    (mkCP "max_R" demoCal demoCal) ⟨1, 1⟩ (1, 0) [1] [2] [1] 2 (by rfl)).1
  rw [h]
  norm_num +decide [demoExt, mkCP, F.nonconformity_func, Agg.aggregate, aggOf,
    normOf, demoGeom, strHasSub, List.filter]

/-- Claim C4 (corrected): the counterexample.  The unsupported mode name
`"translation"` is not rejected: because it contains the letter `"t"`, the
substring dispatch silently scores it in translation-only mode and returns a
value instead of raising. -/
theorem claim_C4_counterexample :
    (mkCP "translation" demoCal demoCal).nonconformity_func demoGeom ⟨1, 1⟩
      0 0 [1] [2] [1] = .ok 2 := by
  norm_num +decide [ConfromalPredictor.nonconformity_func, modeRatios, mkCP,
    strHasSub, F.nonconformity_func, Agg.aggregate, aggOf, normOf, demoGeom]

/-- Claim C4 (corrected, amended): only a name containing neither `"R"` nor
`"t"` as a substring makes `nonconformity_func` fail, with
`ValueError("Invalid nonconformity function name")`; every name containing
those letters is dispatched by substring matching to some scoring mode. -/
theorem claim_C4_amended_no_letter {R T : Type} (G : Geom R T)
    (cp : ConfromalPredictor R T) (st : FState) (center_R : R) (center_t : T)
    (pred_Rs : List R) (pred_ts : List T) (pred_scores : List ℚ)
    (h1 : strHasSub cp.nonconformity_func_name "Rt" = false)
    (h2 : strHasSub cp.nonconformity_func_name "R" = false)
    (h3 : strHasSub cp.nonconformity_func_name "t" = false) :
    cp.nonconformity_func G st center_R center_t pred_Rs pred_ts pred_scores =
      .error (.valueError "Invalid nonconformity function name") := by
  unfold ConfromalPredictor.nonconformity_func modeRatios
  rw [h1, h2, h3]
  rfl

theorem claim_C4_amended_no_letter_witness :
    (mkCP "bogus" demoCal demoCal).nonconformity_func demoGeom ⟨1, 1⟩
      0 0 [1] [2] [1] = .error (.valueError "Invalid nonconformity function name") :=
  claim_C4_amended_no_letter demoGeom (mkCP "bogus" demoCal demoCal) ⟨1, 1⟩
    0 0 [1] [2] [1] (by decide) (by decide) (by decide)

/-- Claim C5 (corrected): the counterexample.  On a calibration set whose
rotation hypotheses coincide with the ground truth (provisional rotation
threshold 0), joint calibration reaches the reciprocal computation and fails
with Python's `ZeroDivisionError`; it does not fail with a distinct
`DegenerateCalibration` error, which the code never raises. -/
theorem claim_C5_counterexample :
    (mkCP "max_Rt" perfectRCal demoCal).calibrate demoGeom ⟨1, 1⟩ (1/10) =
      .error .zeroDivisionError ∧
    (mkCP "max_Rt" perfectRCal demoCal).calibrate demoGeom ⟨1, 1⟩ (1/10) ≠
      .error .degenerateCalibration := by
  have h := calibrate_joint_zeroR demoGeom (mkCP "max_Rt" perfectRCal demoCal)
    ⟨1, 1⟩ (1/10) (by decide) (by decide) (by norm_num) (by norm_num)
    (by norm_num +decide [quantLin, gtScoreList, F.nonconformity_func, Agg.aggregate,
      aggOf, normOf, demoGeom, perfectRCal, mkCP, List.insertionSort,
      List.orderedInsert, strHasSub])
  exact ⟨h, by rw [h]; simp⟩

/-- The joint branch of `calibrate` when the rotation provisional threshold is
nonzero but the translation one is zero: the second reciprocal raises
`ZeroDivisionError`. -/
theorem calibrate_joint_zerot {R T : Type} [Inhabited R] [Inhabited T] (G : Geom R T)
    (cp : ConfromalPredictor R T) (st : FState) (epsilon : ℚ)
    (hRt : strHasSub cp.nonconformity_func_name "Rt" = true)
    (hsz : 1 ≤ cp.calibration_set.size)
    (hq0 : 0 ≤ 1 - epsilon) (hq1 : 1 - epsilon ≤ 1)
    (hthrR : quantLin (gtScoreList G cp.nonconformity_func_name cp.calibration_set 1 0)
      (1 - epsilon) ≠ 0)
    (hthrt : quantLin (gtScoreList G cp.nonconformity_func_name cp.calibration_set 0 1)
      (1 - epsilon) = 0) :
    cp.calibrate G st epsilon = .error .zeroDivisionError := by
  unfold ConfromalPredictor.calibrate
  rw [if_neg (by rw [hRt]; simp)]
  dsimp only
  rw [npQuantile_ok _ _ hq0 hq1 (gtScoreList_ne_nil G _ _ 1 0 hsz)]
  dsimp only
  rw [npQuantile_ok _ _ hq0 hq1 (gtScoreList_ne_nil G _ _ 0 1 hsz)]
  dsimp only
  rw [if_neg hthrR, if_pos hthrt]

/-- Claim C5 (corrected, amended): in joint mode, when a provisional
per-component threshold (the `1 - ε` quantile of rotation-only or
translation-only scores) is zero, `calibrate` fails — but with Python's
`ZeroDivisionError` raised by the reciprocal computation itself; there is no
`DegenerateCalibration` error and no pre-check. -/
theorem claim_C5_amended_zero_division {R T : Type} [Inhabited R] [Inhabited T]
    (G : Geom R T) (cp : ConfromalPredictor R T) (st : FState) (epsilon : ℚ)
    (hRt : strHasSub cp.nonconformity_func_name "Rt" = true)
    (hsz : 1 ≤ cp.calibration_set.size)
    (he0 : 0 < epsilon) (he1 : epsilon < 1)
    (hzero : quantLin (gtScoreList G cp.nonconformity_func_name cp.calibration_set 1 0)
        (1 - epsilon) = 0 ∨
      (quantLin (gtScoreList G cp.nonconformity_func_name cp.calibration_set 1 0)
          (1 - epsilon) ≠ 0 ∧
        quantLin (gtScoreList G cp.nonconformity_func_name cp.calibration_set 0 1)
          (1 - epsilon) = 0)) :
    cp.calibrate G st epsilon = .error .zeroDivisionError := by
  rcases hzero with h | ⟨hR, ht⟩
  · exact calibrate_joint_zeroR G cp st epsilon hRt hsz (by linarith) (by linarith) h
  · exact calibrate_joint_zerot G cp st epsilon hRt hsz (by linarith) (by linarith) hR ht

theorem claim_C5_amended_zero_division_witness :
    (mkCP "max_Rt" perfectRCal demoCal).calibrate demoGeom ⟨1, 1⟩ (1/10) =
      .error .zeroDivisionError :=
  claim_C5_amended_zero_division demoGeom (mkCP "max_Rt" perfectRCal demoCal)
    ⟨1, 1⟩ (1/10) (by decide) (by decide) (by norm_num) (by norm_num)
    (Or.inl (by norm_num +decide [quantLin, gtScoreList, F.nonconformity_func,
      Agg.aggregate, aggOf, normOf, demoGeom, perfectRCal, mkCP,
      List.insertionSort, List.orderedInsert, strHasSub]))

/-- Claim C6 (corrected): the counterexample.  `calibrate` on an empty
calibration set fails with the error `np.quantile` raises on an empty sample
(`IndexError`), not with a distinct `InsufficientCalibrationData` error; and
`ε = 0` — which lies outside the open interval `(0, 1)` — does not fail at
all: the quantile of the single demo score is returned. -/
theorem claim_C6_counterexample :
    (mkCP "max_R" emptyCal demoCal).calibrate demoGeom ⟨1, 1⟩ (1/10) =
      .error .indexError ∧
    (mkCP "max_R" emptyCal demoCal).calibrate demoGeom ⟨1, 1⟩ (1/10) ≠
      .error .insufficientCalibrationData ∧
    (mkCP "max_R" demoCal demoCal).calibrate demoGeom ⟨1, 1⟩ 0 = .ok (⟨1, 1⟩, 1) := by
  have h1 := calibrate_single_empty demoGeom (mkCP "max_R" emptyCal demoCal)
    ⟨1, 1⟩ (1/10) (by decide) (by decide) (by norm_num) (by norm_num)
  have h3 := calibrate_single_eq demoGeom (mkCP "max_R" demoCal demoCal)
    ⟨1, 1⟩ 0 (1, 0) (by decide) (by rfl) (by decide) (by norm_num) (by norm_num)
  refine ⟨h1, by rw [h1]; simp, ?_⟩
  rw [h3]
  norm_num +decide [quantLin, gtScoreList, F.nonconformity_func, Agg.aggregate,
    aggOf, normOf, demoGeom, demoCal, mkCP, List.insertionSort, List.orderedInsert,
    strHasSub]

/-- Claim C6 (corrected, amended): in single-component mode, `calibrate` on an
empty calibration set fails with `np.quantile`'s empty-sample `IndexError`
(not a distinct `InsufficientCalibrationData` error); `ε` with `1 - ε`
outside `[0, 1]` fails with `np.quantile`'s range `ValueError` (not a
distinct `InvalidConfiguration` error); and `ε = 0` does not fail: the
returned threshold is the `1` quantile (the maximum score). -/
theorem claim_C6_amended_failure_modes {R T : Type} [Inhabited R] [Inhabited T]
    (G : Geom R T) (cp : ConfromalPredictor R T) (st : FState) (epsilon : ℚ)
    (rt : ℚ × ℚ)
    (hRt : strHasSub cp.nonconformity_func_name "Rt" = false)
    (hmode : modeRatios cp.nonconformity_func_name st = .ok rt) :
    (cp.calibration_set.size = 0 → 0 ≤ 1 - epsilon → 1 - epsilon ≤ 1 →
      cp.calibrate G st epsilon = .error .indexError) ∧
    (1 - epsilon < 0 ∨ 1 < 1 - epsilon →
      cp.calibrate G st epsilon =
        .error (.valueError "Quantiles must be in the range [0, 1]")) ∧
    (1 ≤ cp.calibration_set.size → epsilon = 0 →
      cp.calibrate G st epsilon =
        .ok (st, quantLin
          (gtScoreList G cp.nonconformity_func_name cp.calibration_set rt.1 rt.2)
          1)) := by
  refine ⟨fun h0 hq0 hq1 => calibrate_single_empty G cp st epsilon hRt h0 hq0 hq1,
    fun hq => calibrate_single_badq G cp st epsilon rt hRt hmode hq,
    fun hsz he => ?_⟩
  subst he
  have h := calibrate_single_eq G cp st 0 rt hRt hmode hsz (by norm_num) (by norm_num)
  simpa using h

theorem claim_C6_amended_failure_modes_witness :
    (mkCP "max_R" emptyCal demoCal).calibrate demoGeom ⟨1, 1⟩ (1/10) =
      .error .indexError ∧
    (mkCP "max_R" demoCal demoCal).calibrate demoGeom ⟨1, 1⟩ 2 =
      .error (.valueError "Quantiles must be in the range [0, 1]") ∧
    (mkCP "max_R" demoCal demoCal).calibrate demoGeom ⟨1, 1⟩ 0 = .ok (⟨1, 1⟩, 1) := by
  have hA := (claim_C6_amended_failure_modes demoGeom (mkCP "max_R" emptyCal demoCal)
    ⟨1, 1⟩ (1/10) (1, 0) (by decide) (by rfl)).1 (by decide) (by norm_num) (by norm_num)
  have hB := (claim_C6_amended_failure_modes demoGeom (mkCP "max_R" demoCal demoCal)
    ⟨1, 1⟩ 2 (1, 0) (by decide) (by rfl)).2.1 (by norm_num)
  have hC := (claim_C6_amended_failure_modes demoGeom (mkCP "max_R" demoCal demoCal)
    ⟨1, 1⟩ 0 (1, 0) (by decide) (by rfl)).2.2 (by decide) rfl
  refine ⟨hA, hB, ?_⟩
  rw [hC]
  norm_num +decide [quantLin, gtScoreList, F.nonconformity_func, Agg.aggregate,
    aggOf, normOf, demoGeom, demoCal, mkCP, List.insertionSort, List.orderedInsert,
    strHasSub]

/-- Claim C7 (confirmed): for every non-empty test set and every threshold,
`test_threshold` returns exactly the count of test observations whose
ground-truth nonconformity score strictly exceeds the threshold, divided by
the test-set size. -/
theorem claim_C7_empirical_miscoverage {R T : Type} [Inhabited R] [Inhabited T]
    (G : Geom R T) (cp : ConfromalPredictor R T) (st : FState) (rt : ℚ × ℚ)
    (nonconformity_threshold : ℚ)
    (hmode : modeRatios cp.nonconformity_func_name st = .ok rt)
    (_hsz : 1 ≤ cp.test_set.size) :
    cp.test_threshold G st nonconformity_threshold =
      .ok (((gtScoreList G cp.nonconformity_func_name cp.test_set rt.1 rt.2).countP
          (fun s => decide (nonconformity_threshold < s)) : ℚ)
        / (cp.test_set.size : ℚ)) :=
  test_threshold_eq G cp st rt nonconformity_threshold hmode

theorem claim_C7_empirical_miscoverage_witness :
    (mkCP "max_R" demoCal demoCal).test_threshold demoGeom ⟨1, 1⟩ (3/2) = .ok 0 := by
  have h := claim_C7_empirical_miscoverage demoGeom (mkCP "max_R" demoCal demoCal)
    ⟨1, 1⟩ (1, 0) (3/2) (by rfl) (by decide)
  rw [h]
  norm_num +decide [gtScoreList, F.nonconformity_func, Agg.aggregate, aggOf,
    normOf, demoGeom, demoCal, mkCP, strHasSub, List.range_succ, List.range_zero,
    List.countP_cons, List.countP_nil, List.getD, Function.comp]

/-- Claim C8 (corrected): the counterexample.  On a well-formed test set with
51 observations, `predict_testset` produces exactly 50 records — the loop is
`for k in range(50)`, not a loop over the test set — so not every observation
of the test set is recorded. -/
theorem claim_C8_counterexample :
    ((mkCP "max_R" demoCal bigTest).predict_testset demoGeom demoExt ⟨1, 1⟩ 2).map
      (fun out => out.1.length) = .ok 50 ∧
    (mkCP "max_R" demoCal bigTest).test_set.size = 51 := by
  have h := predict_testset_eq demoGeom demoExt (mkCP "max_R" demoCal bigTest)
    ⟨1, 1⟩ (1, 0) 2 (by decide) (by rfl)
  constructor
  · rw [h]
    simp [Except.map]
  · rfl

/-- Claim C8 (corrected, amended): for every test set with at least 50
observations, `predict_testset` computes and records the full output record
(minimal-enclosing-ball center rotation and translation, the two radii, the
feasible sets, and measured errors against ground truth) for each of the
*first 50* test observations — the count is hardcoded, not the test-set size
— and returns the records alongside the configuration used to produce them. -/
theorem claim_C8_amended_first_fifty {R T : Type} [Inhabited R] [Inhabited T]
    (G : Geom R T) (ext : Externals R T) (cp : ConfromalPredictor R T) (st : FState)
    (rt : ℚ × ℚ) (nonconformity_threshold : ℚ)
    (hsz : 50 ≤ cp.test_set.size)
    (hmode : modeRatios cp.nonconformity_func_name st = .ok rt) :
    cp.predict_testset G ext st nonconformity_threshold =
      .ok ((List.range 50).map (recordPure G ext cp rt nonconformity_threshold),
        cp.runParams nonconformity_threshold) ∧
    ((List.range 50).map (recordPure G ext cp rt nonconformity_threshold)).length = 50 :=
  ⟨predict_testset_eq G ext cp st rt nonconformity_threshold (by omega) hmode, by simp⟩

theorem claim_C8_amended_first_fifty_witness :
    50 ≤ (mkCP "max_R" demoCal bigTest).test_set.size ∧
    (mkCP "max_R" demoCal bigTest).predict_testset demoGeom demoExt ⟨1, 1⟩ 2 =
      .ok ((List.range 50).map (recordPure demoGeom demoExt
          (mkCP "max_R" demoCal bigTest) (1, 0) 2),
        (mkCP "max_R" demoCal bigTest).runParams 2) :=
  ⟨by decide, (claim_C8_amended_first_fifty demoGeom demoExt
    (mkCP "max_R" demoCal bigTest) ⟨1, 1⟩ (1, 0) 2 (by decide) (by rfl)).1⟩

/-- Claim C9 (code bug): `load_dataset` preserves every field of calibration
observations, but the test subset's `image_ids` field is assigned from
`object_ids` (line 131).  On a two-observation dataset with object ids
`[7, 7]` and image ids `[0, 1]`, calibrating on index 0 leaves test
observation 1, whose recorded image id becomes 7 instead of 1. -/
theorem claim_C9_test_image_ids_bug :
    (loadPartition demoFull [0]).2.data_ids = [1] ∧
    (loadPartition demoFull [0]).2.image_ids = [7] ∧
    demoFull.image_ids = [0, 1] ∧
    demoFull.object_ids = [7, 7] ∧
    (loadPartition demoFull [0]).1.image_ids = [0] := by
  refine ⟨by decide, by decide, rfl, rfl, by decide⟩

/-- Claim C10 (confirmed): in joint `Rt` mode the value of
`nonconformity_func` is not determined by its arguments alone — it reads the
module-level calibrated ratios at call time, and `calibrate` overwrites them.
Concretely: starting from module state `(1, 1)`, joint calibration on the
demo set rewrites the state to `(1, 1/2)`, and the very same scoring call
returns 3 before the calibration and 2 after it. -/
theorem claim_C10_joint_state_dependence :
    (mkCP "max_Rt" demoCal demoCal).calibrate demoGeom ⟨1, 1⟩ (1/10) =
      .ok (⟨1, 1/2⟩, 2) ∧
    (mkCP "max_Rt" demoCal demoCal).nonconformity_func demoGeom ⟨1, 1⟩
      0 0 [1] [2] [1] = .ok 3 ∧
    (mkCP "max_Rt" demoCal demoCal).nonconformity_func demoGeom ⟨1, 1/2⟩
      0 0 [1] [2] [1] = .ok 2 ∧
    (⟨1, 1⟩ : FState) ≠ ⟨1, 1/2⟩ ∧ (3 : ℚ) ≠ 2 := by
  refine ⟨?_, ?_, ?_, ?_, by norm_num⟩
  · have h := calibrate_joint_eq demoGeom (mkCP "max_Rt" demoCal demoCal)
      ⟨1, 1⟩ (1/10) (by decide) (by decide) (by norm_num) (by norm_num)
      (by norm_num +decide [quantLin, gtScoreList, F.nonconformity_func,
        Agg.aggregate, aggOf, normOf, demoGeom, demoCal, mkCP,
        List.insertionSort, List.orderedInsert, strHasSub])
      (by norm_num +decide [quantLin, gtScoreList, F.nonconformity_func,
        Agg.aggregate, aggOf, normOf, demoGeom, demoCal, mkCP,
        List.insertionSort, List.orderedInsert, strHasSub])
    rw [h]
    norm_num +decide [quantLin, gtScoreList, F.nonconformity_func, Agg.aggregate,
      aggOf, normOf, demoGeom, demoCal, mkCP, List.insertionSort,
      List.orderedInsert, strHasSub]
  · norm_num +decide [ConfromalPredictor.nonconformity_func, modeRatios, mkCP,
      strHasSub, F.nonconformity_func, Agg.aggregate, aggOf, normOf, demoGeom]
  · norm_num +decide [ConfromalPredictor.nonconformity_func, modeRatios, mkCP,
      strHasSub, F.nonconformity_func, Agg.aggregate, aggOf, normOf, demoGeom]
  · intro hc
    have := congrArg FState.calibrated_t_ratio hc
    norm_num at this
